import Mathlib

/-!
Shallow embedding of the file-integrity monitoring core of the
Python HIDS repository (src/file_monitor.py, schema from src/database.py),
used to check the natural-language specification against the code.

Modelling conventions:
* SQLite values stored in nullable TEXT columns are `SQLVal` (`null` models
  the SQL NULL value, `text s` a TEXT value).  The Python code always binds
  Python `str` values for the time columns (including the literal string
  "NULL"), never Python `None`.
* The `Files`/`Events` tables are lists of rows in insertion (rowid) order;
  `AUTOINCREMENT` ids are handed out by `nextFileId`/`nextEventId`.
* `cursor.lastrowid` is modelled by `DB.lastrowid`: it is updated only by a
  successful INSERT and keeps its previous value when an INSERT raises.
* `cursor.execute("SELECT * FROM Files WHERE col = ?")` followed by
  `cursor.fetchone()`: the `Files` table has no index on `file_path` or
  `filename` and the query has no ORDER BY, so SQLite answers it with a
  full table scan in rowid order; `fetchone` therefore yields the
  earliest-inserted matching row.  This is modelled with `List.find?`.
* Storage failures (the `except` branches of `insert_file`/`insert_event`)
  are driven by explicit fault flags passed to each insert.
* The filesystem is a list of entries (directory, name, optional content,
  ctime, mtime); unreadable or vanished files have no content and make
  `calculate_crc32_checksum` return `none`, matching the caught
  FileNotFoundError/PermissionError path.
-/

/-- SQLite value stored in a nullable TEXT column: either the SQL NULL or a
TEXT value.  Binding the Python string "NULL" yields `text "NULL"`, not
`null`. -/
inductive SQLVal where
  | null : SQLVal
  | text (s : String) : SQLVal
deriving DecidableEq, Repr

/-- Row of the `Files` table (schema in src/database.py): file_id is the
AUTOINCREMENT primary key; the three time columns are nullable TEXT. -/
structure FileRow where
  file_id : Nat
  filename : String
  file_path : String
  creation_time : SQLVal
  modification_time : SQLVal
  deletion_time : SQLVal
  hash_value : String
  user : String
  role : String
deriving DecidableEq, Repr

/-- Row of the `Events` table: `file_id` is a foreign key into `Files`,
nullable and (by SQLite default) unenforced, hence `Option Nat`. -/
structure EventRow where
  event_id : Nat
  event_type : String
  event_time : String
  file_id : Option Nat
deriving DecidableEq, Repr

/-- The shared store as seen through the module-level `conn`/`cursor`:
the two tables, the next AUTOINCREMENT ids, and `cursor.lastrowid`. -/
structure DB where
  files : List FileRow
  events : List EventRow
  nextFileId : Nat
  nextEventId : Nat
  lastrowid : Option Nat
deriving DecidableEq, Repr

/-- A fresh database: both tables empty, AUTOINCREMENT counters at 1,
no INSERT yet, so `cursor.lastrowid` is `None`. -/
def DB.empty : DB := ⟨[], [], 1, 1, none⟩

/-- Embeds `insert_file` (src/file_monitor.py lines 34-79).  `fault = true`
models `cursor.execute` raising: the `except` branch rolls back, so the
table is unchanged and `lastrowid` keeps its previous value.  On success
the row is appended, committed, and `lastrowid` becomes the new rowid. -/
def insert_file (fault : Bool) (db : DB) (filename filepath : String)
    (creation_time modification_time deletion_time : SQLVal)
    (checksum user role : String) : DB :=
  if fault then db
  else
    { db with
      files := db.files ++
        [⟨db.nextFileId, filename, filepath, creation_time,
          modification_time, deletion_time, checksum, user, role⟩],
      nextFileId := db.nextFileId + 1,
      lastrowid := some db.nextFileId }

/-- Embeds `insert_event` (src/file_monitor.py lines 81-106); same fault
convention as `insert_file`. -/
def insert_event (fault : Bool) (db : DB) (event_type event_time : String)
    (file_id : Option Nat) : DB :=
  if fault then db
  else
    { db with
      events := db.events ++
        [⟨db.nextEventId, event_type, event_time, file_id⟩],
      nextEventId := db.nextEventId + 1,
      lastrowid := some db.nextEventId }

/-- One reflected CRC-32 shift step (polynomial 0xEDB88320), the bit-level
operation underlying `zlib.crc32`. -/
def crc32Bit (c : Nat) : Nat :=
  if c % 2 = 1 then (c / 2) ^^^ 0xEDB88320 else c / 2

/-- Folds one input byte into the running CRC register. -/
def crc32Byte (c b : Nat) : Nat :=
  crc32Bit^[8] (c ^^^ (b % 256))

/-- Embeds one call `zlib.crc32(chunk, value)`: pre-invert the running
value, fold the chunk bytes, post-invert. -/
def crc32 (chunk : List Nat) (value : Nat) : Nat :=
  (chunk.foldl crc32Byte ((value % 2 ^ 32) ^^^ 0xFFFFFFFF)) ^^^ 0xFFFFFFFF

/-- Fuel-driven worker for `chunks8192`; the fuel starts at the content
length, and every round consumes at least one byte, so it never runs
out. -/
def chunksGo : Nat → List Nat → List (List Nat)
  | _, [] => []
  | 0, _ :: _ => []
  | fuel + 1, b :: bs =>
    ((b :: bs).take 8192) :: chunksGo fuel ((b :: bs).drop 8192)

/-- Splits file content into the 8192-byte chunks produced by
`file.read(8192)` in `calculate_crc32_checksum`. -/
def chunks8192 (l : List Nat) : List (List Nat) :=
  chunksGo l.length l

/-- Lower-case hexadecimal digit for a nibble, as Python `format(-, 'x')`
produces. -/
def hexDigit (d : Nat) : Char :=
  if d < 10 then Char.ofNat (48 + d) else Char.ofNat (87 + d)

/-- Embeds `format(n & 0xFFFFFFFF, '08x')`: eight lower-case hex digits,
zero padded (the masked value always fits in eight digits). -/
def format08x (n : Nat) : String :=
  String.mk (((List.range 8).map fun i => hexDigit (n / 16 ^ (7 - i) % 16)))

/-- A regular file visible to the scanner and the watcher: its directory,
its base name, its readable content (`none` models unreadable/vanished),
and its filesystem creation/modification timestamps already formatted the
way the Python code formats them. -/
structure FSEntry where
  dir : String
  name : String
  content : Option (List Nat)
  ctime : String
  mtime : String
deriving DecidableEq, Repr

/-- The watched filesystem: a finite list of regular files. -/
abbrev FS := List FSEntry

/-- Embeds `os.path.join(root, file)` for the path of an entry. -/
def epath (e : FSEntry) : String := e.dir ++ "/" ++ e.name

/-- Finds the entry at a full path. -/
def lookupFS (fs : FS) (p : String) : Option FSEntry :=
  fs.find? (fun e => epath e == p)

/-- Embeds `os.path.getctime` composed with the strftime formatting. -/
def getctime (fs : FS) (p : String) : Option String :=
  (lookupFS fs p).map FSEntry.ctime

/-- Embeds `os.path.getmtime` composed with the strftime formatting. -/
def getmtime (fs : FS) (p : String) : Option String :=
  (lookupFS fs p).map FSEntry.mtime

/-- Chars after the last path separator: scans the characters, resetting
the accumulator at every separator. -/
def afterLastSep : List Char → List Char → List Char
  | [], acc => acc
  | c :: cs, acc =>
    if c = '/' then afterLastSep cs [] else afterLastSep cs (acc ++ [c])

/-- Embeds `os.path.basename`: the part after the last separator. -/
def basename (p : String) : String :=
  String.mk (afterLastSep p.data [])

/-- Boolean test that string `s` begins with `q`, on the character
lists. -/
def headMatches : List Char → List Char → Bool
  | [], _ => true
  | _ :: _, [] => false
  | a :: as, b :: bs => a == b && headMatches as bs

/-- True when `s` starts with `q`. -/
def startsWithStr (s q : String) : Bool :=
  headMatches q.data s.data

/-- Embeds `calculate_crc32_checksum` (src/file_monitor.py lines 120-138):
stream the content in 8192-byte chunks through `zlib.crc32` starting from
0, mask to 32 bits and format as eight hex digits; an unreadable or
missing file raises and the handler returns `None`. -/
def calculate_crc32_checksum (fs : FS) (filepath : String) : Option String :=
  match lookupFS fs filepath with
  | none => none
  | some e =>
    match e.content with
    | none => none
    | some bytes =>
      some (format08x
        (((chunks8192 bytes).foldl (fun c chunk => crc32 chunk c) 0) % 2 ^ 32))

/-- Python truthiness of an `Optional[str]`: `None` and the empty string
are falsy, every other string is truthy (`if checksum:` in the source). -/
def pyTruthy (o : Option String) : Bool :=
  match o with
  | none => false
  | some s => decide (s ≠ "")

/-- Ambient process environment: `getpass.getuser()`, `is_admin()`, and
the clock read by `datetime.now()`. -/
structure Env where
  user : String
  admin : Bool
  now : String
deriving DecidableEq, Repr

/-- Embeds `SELECT * FROM Files WHERE file_path = ?` + `fetchone()`:
a full table scan in rowid order, so the earliest-inserted matching row
is returned. -/
def lookupByPath (db : DB) (p : String) : Option FileRow :=
  db.files.find? (fun row => row.file_path == p)

/-- Embeds `SELECT * FROM Files WHERE filename = ?` + `fetchone()`, the
basename-keyed lookup used by `on_moved`. -/
def lookupByFilename (db : DB) (n : String) : Option FileRow :=
  db.files.find? (fun row => row.filename == n)

/-- Per-file details accumulated and returned by `scan_directory`
(the dict literal at src/file_monitor.py lines 187-193). -/
structure FileDetail where
  filename : String
  file_path : String
  creation_time : String
  last_modified_time : String
  checksum : String
deriving DecidableEq, Repr

/-- Embeds `os.walk` restricted to one root: the regular files whose
directory is the root itself or lies strictly under it. -/
def walkFiles (fs : FS) (d : String) : List FSEntry :=
  fs.filter (fun e => e.dir == d || startsWithStr e.dir (d ++ "/"))

/-- Body of the innermost loop of `scan_directory` (src/file_monitor.py
lines 154-193): fingerprint the file and, when the checksum is truthy,
insert the FileRecord, read `cursor.lastrowid`, insert the paired
`Scanned in directory` event, and append the detail dict. -/
def scanStep (env : Env) (fs : FS) (acc : List FileDetail × DB)
    (e : FSEntry) : List FileDetail × DB :=
  let role := if env.admin then "Admin" else "Standard User"
  let filepath := epath e
  match calculate_crc32_checksum fs filepath with
  | some checksum =>
    if checksum = "" then acc
    else
      let db1 := insert_file false acc.2 e.name filepath
        (SQLVal.text e.ctime) (SQLVal.text e.mtime) (SQLVal.text "NULL")
        checksum env.user role
      let db2 := insert_event false db1 "Scanned in directory" e.ctime
        db1.lastrowid
      (acc.1 ++ [⟨e.name, filepath, e.ctime, e.mtime, checksum⟩], db2)
  | none => acc

/-- Embeds `scan_directory` (src/file_monitor.py lines 140-197): walk
every root in order, record each fingerprintable file, and return the
accumulated `file_details` list together with the updated store. -/
def scan_directory (env : Env) (fs : FS) (directories : List String)
    (db : DB) : List FileDetail × DB :=
  directories.foldl
    (fun acc directory => (walkFiles fs directory).foldl (scanStep env fs) acc)
    ([], db)

/-- Python runtime value returned by `scan_directory`: either a number or
a list of per-file detail dicts. -/
inductive PyRet where
  | ofNat (n : Nat) : PyRet
  | ofList (l : List FileDetail) : PyRet
deriving DecidableEq, Repr

/-- True exactly when a returned value is a number. -/
def PyRet.isCount : PyRet → Bool
  | .ofNat _ => true
  | .ofList _ => false

/-- The value the Python `scan_directory` hands back to its caller:
the `file_details` list built during the scan. -/
def scanReturnValue (env : Env) (fs : FS) (directories : List String)
    (db : DB) : PyRet :=
  PyRet.ofList (scan_directory env fs directories db).1

/-- Guard under which `scan_directory` records a walked file: the
fingerprint of its full path is truthy. -/
def scanGuard (fs : FS) (e : FSEntry) : Bool :=
  pyTruthy (calculate_crc32_checksum fs (epath e))

/-- Number of files `scan_directory` records for a list of roots: the
walked files, per root, whose fingerprint is truthy. -/
def scanCount (fs : FS) (directories : List String) : Nat :=
  directories.foldl
    (fun n d => n + ((walkFiles fs d).filter (scanGuard fs)).length) 0

/-- Embeds `FileEventHandler.on_created` (src/file_monitor.py lines
214-249).  `processed` is the session-scoped `processed_files` set
(membership is all that matters, so a list).  The path is added to the
set before fingerprinting, exactly as in the source.  `ff`/`ef` are the
fault flags of the two inserts. -/
def on_created (env : Env) (fs : FS) (processed : List String) (db : DB)
    (src_path : String) (is_dir ff ef : Bool) : List String × DB :=
  if is_dir then (processed, db)
  else if src_path ∈ processed then (processed, db)
  else
    let processed1 := src_path :: processed
    let role := if env.admin then "Admin" else "Standard User"
    let filename := basename src_path
    match getctime fs src_path, calculate_crc32_checksum fs src_path with
    | some creation_time, some checksum =>
      if checksum = "" then (processed1, db)
      else
        let db1 := insert_file ff db filename src_path
          (SQLVal.text creation_time) (SQLVal.text "NULL")
          (SQLVal.text "NULL") checksum env.user role
        (processed1, insert_event ef db1 "Creation" creation_time db1.lastrowid)
    | _, _ => (processed1, db)

/-- Embeds `FileEventHandler.on_modified` (src/file_monitor.py lines
251-289): fingerprint, then look the path up by full path; when a row is
found, insert a new FileRecord carrying forward its creation_time with
the fresh mtime, hash, user and role, plus a `Modified` event; when no
row is found, nothing is written. -/
def on_modified (env : Env) (fs : FS) (db : DB) (src_path : String)
    (is_dir ff ef : Bool) : DB :=
  if is_dir then db
  else
    match calculate_crc32_checksum fs src_path, getmtime fs src_path with
    | some checksum, some modified_time =>
      if checksum = "" then db
      else
        let role := if env.admin then "Admin" else "Standard User"
        let filename := basename src_path
        match lookupByPath db src_path with
        | some result =>
          let db1 := insert_file ff db filename src_path
            result.creation_time (SQLVal.text modified_time)
            (SQLVal.text "NULL") checksum env.user role
          insert_event ef db1 "Modified" modified_time db1.lastrowid
        | none => db
    | _, _ => db

/-- Embeds `FileEventHandler.on_moved` (src/file_monitor.py lines
291-329): fingerprint the destination, look the source up by basename
(`filename = ?`), and when a row is found insert a new FileRecord at the
destination carrying forward the stored hash, user and role (columns 6,
7, 8 of the matched row) — the freshly computed checksum is not stored —
plus a `Renamed from .. to ..` event. -/
def on_moved (_env : Env) (fs : FS) (db : DB) (src_path dest_path : String)
    (is_dir ff ef : Bool) : DB :=
  if is_dir then db
  else
    match calculate_crc32_checksum fs dest_path, getmtime fs dest_path with
    | some checksum, some modified_time =>
      if checksum = "" then db
      else
        let old_name := basename src_path
        let new_name := basename dest_path
        match lookupByFilename db old_name with
        | some result =>
          let db1 := insert_file ff db new_name dest_path
            result.creation_time (SQLVal.text modified_time)
            (SQLVal.text "NULL") result.hash_value result.user result.role
          insert_event ef db1
            ("Renamed from " ++ old_name ++ " to " ++ new_name)
            modified_time db1.lastrowid
        | none => db
    | _, _ => db

/-- Embeds `FileEventHandler.on_deleted` (src/file_monitor.py lines
331-362): look the path up by full path; when a row is found, insert a
new FileRecord keeping its creation/modification times, hash and role,
with `deletion_time = datetime.now()` and the user re-read from
`getpass.getuser()`, plus a `Deletion` event. -/
def on_deleted (env : Env) (db : DB) (src_path : String)
    (is_dir ff ef : Bool) : DB :=
  if is_dir then db
  else
    let filename := basename src_path
    let deletion_time := env.now
    match lookupByPath db src_path with
    | some result =>
      let db1 := insert_file ff db filename src_path
        result.creation_time result.modification_time
        (SQLVal.text deletion_time) result.hash_value env.user result.role
      insert_event ef db1 "Deletion" deletion_time db1.lastrowid
    | none => db

/-- Observable startup actions of `monitor_directories`, in program
order: the synchronous baseline scan (entry and return), one watcher
subscription per directory (`observer.schedule`), `observer.start()`,
and the blocking monitor loop. -/
inductive MonAction where
  | scanStart (dirs : List String) : MonAction
  | scanEnd : MonAction
  | scheduleWatch (dir : String) : MonAction
  | observerStart : MonAction
  | monitorLoop : MonAction
deriving DecidableEq, Repr

/-- Embeds `monitor_directories` (src/file_monitor.py lines 364-392):
`scan_directory(directories)` is called first and runs to completion,
then the handler/observer are created, each directory is scheduled, and
the observer is started.  The trace records that program order; the
store reflects the completed baseline scan. -/
def monitor_directories (env : Env) (fs : FS) (directories : List String)
    (db : DB) : List MonAction × DB :=
  let scanned := scan_directory env fs directories db
  (MonAction.scanStart directories :: MonAction.scanEnd ::
      (directories.map MonAction.scheduleWatch ++
        [MonAction.observerStart, MonAction.monitorLoop]),
    scanned.2)

/-- True when some watcher subscription is registered before the baseline
scan has returned, i.e. a `scheduleWatch` action occurs strictly before
the first `scanEnd` in the trace. -/
def scheduleBeforeScanEnd : List MonAction → Bool
  | [] => false
  | MonAction.scanEnd :: _ => false
  | MonAction.scheduleWatch _ :: _ => true
  | _ :: rest => scheduleBeforeScanEnd rest

/-- Well-formed store: rows of `Files` appear in strictly increasing
rowid order, as successive AUTOINCREMENT inserts produce. -/
def DB.WF (db : DB) : Prop :=
  db.files.Pairwise (fun a b => a.file_id < b.file_id)

/-- Example filesystem entry: an empty, readable file a.txt under /w. -/
def exEntryA : FSEntry := ⟨"/w", "a.txt", some [], "CT1", "MT1"⟩

/-- Example filesystem entry: an empty, readable file b.txt under /w. -/
def exEntryB : FSEntry := ⟨"/w", "b.txt", some [], "CT2", "MT2"⟩

/-- Example watched filesystem with the two files under /w. -/
def exFS1 : FS := [exEntryA, exEntryB]

/-- Example stored FileRecord for /w/a.txt, inserted earlier by user
alice with hash deadbeef. -/
def exRowOld : FileRow :=
  ⟨1, "a.txt", "/w/a.txt", SQLVal.text "CT0", SQLVal.text "MT0",
    SQLVal.text "NULL", "deadbeef", "alice", "Admin"⟩

/-- Example store holding only `exRowOld`. -/
def exDB1 : DB := ⟨[exRowOld], [], 2, 1, some 1⟩

/-- Example environment: the process now runs as user bob without
elevation, and the clock reads NOW. -/
def exEnv : Env := ⟨"bob", false, "NOW"⟩

/-- Example FileRecord: the older of two records sharing path /a and
basename f.txt. -/
def exRowA : FileRow :=
  ⟨1, "f.txt", "/a", SQLVal.text "T1", SQLVal.text "M1",
    SQLVal.text "NULL", "h1", "u1", "Admin"⟩

/-- Example FileRecord: the newer record for the same path /a and
basename f.txt. -/
def exRowB : FileRow :=
  ⟨2, "f.txt", "/a", SQLVal.text "T2", SQLVal.text "M2",
    SQLVal.text "NULL", "h2", "u2", "Admin"⟩

/-- Example store with two records matching the same path and the same
basename. -/
def exDB2 : DB := ⟨[exRowA, exRowB], [], 3, 1, some 2⟩

/-- Store invariant established and consumed by the scan-writer proofs:
relative to a starting store, only whole FileRecord/Event pairs produced
by the baseline scanner were appended; each new FileRecord has the
literal TEXT value "NULL" as deletion_time and each new Event is a
`Scanned in directory` event whose timestamp is the creation time stored
in its FileRecord. -/
def ScanInv (db0 db : DB) : Prop :=
  ∃ nf ne, db.files = db0.files ++ nf ∧ db.events = db0.events ++ ne ∧
    (∀ r ∈ nf, r.deletion_time = SQLVal.text "NULL") ∧
    (∀ ev ∈ ne, ev.event_type = "Scanned in directory" ∧
      ∃ r ∈ nf, ev.file_id = some r.file_id ∧
        r.creation_time = SQLVal.text ev.event_time)

/-- A predicate-stable invariant survives a whole left fold. -/
theorem foldl_pres {α β : Type} (P : β → Prop) (f : β → α → β)
    (hstep : ∀ b a, P b → P (f b a)) :
    ∀ (l : List α) (b : β), P b → P (l.foldl f b) := by
  intro l
  induction l with
  | nil => intro b hb; exact hb
  | cons a t ih => intro b hb; exact ih (f b a) (hstep b a hb)

/-- On a list whose file ids strictly increase, `find?` returns the
matching row of least file id. -/
theorem find_first_minimal (p : FileRow → Bool) :
    ∀ (l : List FileRow) (r : FileRow),
      l.Pairwise (fun a b => a.file_id < b.file_id) →
      l.find? p = some r →
      ∀ r2 ∈ l, p r2 = true → r.file_id ≤ r2.file_id := by
  intro l
  induction l with
  | nil => intro r _ hf; simp at hf
  | cons a t ih =>
    intro r hpw hf r2 hr2 hp2
    rw [List.pairwise_cons] at hpw
    by_cases hpa : p a = true
    · rw [List.find?_cons_of_pos _ hpa] at hf
      obtain rfl : a = r := by injection hf
      rcases List.mem_cons.mp hr2 with h | h
      · exact h ▸ le_refl _
      · exact le_of_lt (hpw.1 r2 h)
    · rw [List.find?_cons_of_neg _ (by simpa using hpa)] at hf
      rcases List.mem_cons.mp hr2 with h | h
      · exact absurd (h ▸ hp2) hpa
      · exact ih r hpw.2 hf r2 h hp2

/-- C1 counterexample: with two stored FileRecords both matching path
"/a" and basename "f.txt", the modify/delete lookup (by full path) and
the rename lookup (by basename) both select the record with file id 1
even though a matching record with the higher file id 2 exists, so the
most recently inserted matching record does not win. -/
theorem c1_counterexample :
    lookupByPath exDB2 "/a" = some exRowA ∧
    lookupByFilename exDB2 "f.txt" = some exRowA ∧
    exRowA.file_id = 1 ∧
    exRowB ∈ exDB2.files ∧ exRowB.file_path = "/a" ∧
    exRowB.filename = "f.txt" ∧ exRowB.file_id = 2 := by
  decide

/-- C1 amended: the `SELECT ... fetchone()` lookups used by the modify,
rename and delete handlers select the earliest inserted matching
FileRecord, i.e. the matching row with the lowest file id, on any
well-formed store. -/
theorem c1_lookup_selects_oldest (db : DB) (hwf : DB.WF db) :
    (∀ p r, lookupByPath db p = some r →
      ∀ r2 ∈ db.files, r2.file_path = p → r.file_id ≤ r2.file_id) ∧
    (∀ n r, lookupByFilename db n = some r →
      ∀ r2 ∈ db.files, r2.filename = n → r.file_id ≤ r2.file_id) := by
  constructor
  · intro p r hf r2 hm hp
    exact find_first_minimal _ db.files r hwf hf r2 hm (by simp [hp])
  · intro n r hf r2 hm hp
    exact find_first_minimal _ db.files r hwf hf r2 hm (by simp [hp])

/-- C1 witness: on the concrete two-record store the lookups return the
lowest-id match, whose id is at most that of the other match. -/
theorem c1_lookup_selects_oldest_witness :
    exRowA.file_id ≤ exRowB.file_id :=
  (c1_lookup_selects_oldest exDB2 (by unfold DB.WF; decide)).1
    "/a" exRowA (by decide) exRowB (by decide) (by decide)

/-- C2 counterexample: on a concrete store, when the FileRecord INSERT of
a modify write fails, the paired Event is still inserted and committed
(with the stale lastrowid as its file id), so the pair is not committed
as a single logical unit. -/
theorem c2_counterexample :
    (on_modified exEnv exFS1 exDB1 "/w/a.txt" false true false).files =
      exDB1.files ∧
    (on_modified exEnv exFS1 exDB1 "/w/a.txt" false true false).events =
      exDB1.events ++ [⟨1, "Modified", "MT1", some 1⟩] := by
  decide

/-- C2 amended: the FileRecord insert and the Event insert each commit on
their own; whenever the FileRecord insert of a modify write fails and
the Event insert succeeds, the store gains no FileRecord but does gain a
committed Event whose file id is the stale pre-failure lastrowid. -/
theorem c2_event_commits_alone (env : Env) (fs : FS) (db : DB)
    (src_path mt c : String) (r : FileRow)
    (hchk : calculate_crc32_checksum fs src_path = some c) (hc : c ≠ "")
    (hmt : getmtime fs src_path = some mt)
    (hlk : lookupByPath db src_path = some r) :
    (on_modified env fs db src_path false true false).files = db.files ∧
    (on_modified env fs db src_path false true false).events =
      db.events ++ [⟨db.nextEventId, "Modified", mt, db.lastrowid⟩] := by
  simp [on_modified, hchk, hmt, hlk, hc, insert_file, insert_event]

/-- C2 witness: the amended statement applied to the concrete store and
filesystem of the counterexample scenario. -/
theorem c2_event_commits_alone_witness :
    (on_modified exEnv exFS1 exDB1 "/w/a.txt" false true false).files =
      exDB1.files ∧
    (on_modified exEnv exFS1 exDB1 "/w/a.txt" false true false).events =
      exDB1.events ++
        [⟨exDB1.nextEventId, "Modified", "MT1", exDB1.lastrowid⟩] :=
  c2_event_commits_alone exEnv exFS1 exDB1 "/w/a.txt" "MT1" "00000000"
    exRowOld (by decide) (by decide) (by decide) (by decide)

/-- C3 counterexample: for path /w/b.txt the fingerprint succeeds and no
current FileRecord exists, yet `on_modified` leaves the store unchanged:
the signal is dropped, not treated as an implicit creation. -/
theorem c3_counterexample :
    pyTruthy (calculate_crc32_checksum exFS1 "/w/b.txt") = true ∧
    lookupByPath exDB1 "/w/b.txt" = none ∧
    on_modified exEnv exFS1 exDB1 "/w/b.txt" false false false = exDB1 := by
  decide

/-- C3 amended: whenever the full-path lookup finds no current
FileRecord, the modify handler writes nothing at all — the store is
returned unchanged, whatever the fingerprint outcome. -/
theorem c3_modify_unknown_path_drops (env : Env) (fs : FS) (db : DB)
    (src_path : String) (d ff ef : Bool)
    (hlk : lookupByPath db src_path = none) :
    on_modified env fs db src_path d ff ef = db := by
  unfold on_modified
  split
  · rfl
  · split
    · split
      · rfl
      · rw [hlk]
    · rfl

/-- C3 witness: the amended statement applied to the concrete scenario of
the counterexample. -/
theorem c3_modify_unknown_path_drops_witness :
    on_modified exEnv exFS1 exDB1 "/w/b.txt" false false false = exDB1 :=
  c3_modify_unknown_path_drops exEnv exFS1 exDB1 "/w/b.txt" false false false
    (by decide)

/-- C4: when the destination fingerprint succeeds and a FileRecord
matching the source basename is found, `on_moved` appends exactly one
FileRecord at the destination path whose hash, user and role are the
matched record's stored values carried forward verbatim (in particular
the hash is not the freshly computed destination fingerprint), plus one
`Renamed` event. -/
theorem c4_rename_carries_stored_hash (env : Env) (fs : FS) (db : DB)
    (src_path dest_path mt c : String) (r : FileRow)
    (hchk : calculate_crc32_checksum fs dest_path = some c) (hc : c ≠ "")
    (hmt : getmtime fs dest_path = some mt)
    (hlk : lookupByFilename db (basename src_path) = some r) :
    (on_moved env fs db src_path dest_path false false false).files =
      db.files ++ [⟨db.nextFileId, basename dest_path, dest_path,
        r.creation_time, SQLVal.text mt, SQLVal.text "NULL",
        r.hash_value, r.user, r.role⟩] ∧
    (on_moved env fs db src_path dest_path false false false).events =
      db.events ++ [⟨db.nextEventId,
        "Renamed from " ++ basename src_path ++ " to " ++ basename dest_path,
        mt, some db.nextFileId⟩] := by
  simp [on_moved, hchk, hmt, hlk, hc, insert_file, insert_event]

/-- C4 witness: moving /w/a.txt to /w/b.txt with stored hash deadbeef and
fresh destination fingerprint 00000000 appends a record carrying
deadbeef, alice and Admin forward. -/
theorem c4_rename_carries_stored_hash_witness :
    (on_moved exEnv exFS1 exDB1 "/w/a.txt" "/w/b.txt" false false false).files =
      exDB1.files ++ [⟨exDB1.nextFileId, basename "/w/b.txt", "/w/b.txt",
        exRowOld.creation_time, SQLVal.text "MT2", SQLVal.text "NULL",
        exRowOld.hash_value, exRowOld.user, exRowOld.role⟩] ∧
    (on_moved exEnv exFS1 exDB1 "/w/a.txt" "/w/b.txt" false false false).events =
      exDB1.events ++ [⟨exDB1.nextEventId,
        "Renamed from " ++ basename "/w/a.txt" ++ " to " ++ basename "/w/b.txt",
        "MT2", some exDB1.nextFileId⟩] :=
  c4_rename_carries_stored_hash exEnv exFS1 exDB1 "/w/a.txt" "/w/b.txt"
    "MT2" "00000000" exRowOld (by decide) (by decide) (by decide) (by decide)

/-- C5: a first `Created` signal for a path not yet in the session set
marks the path processed and writes exactly one FileRecord/Event pair;
a second `Created` signal for the same untouched path is discarded by
the dedup guard and changes nothing. -/
theorem c5_created_dedup (env : Env) (fs : FS) (processed : List String)
    (db : DB) (path ct c : String)
    (hnp : path ∉ processed)
    (hct : getctime fs path = some ct)
    (hchk : calculate_crc32_checksum fs path = some c) (hc : c ≠ "") :
    (on_created env fs processed db path false false false).1 =
      path :: processed ∧
    (on_created env fs processed db path false false false).2.files =
      db.files ++ [⟨db.nextFileId, basename path, path, SQLVal.text ct,
        SQLVal.text "NULL", SQLVal.text "NULL", c, env.user,
        if env.admin then "Admin" else "Standard User"⟩] ∧
    (on_created env fs processed db path false false false).2.events =
      db.events ++ [⟨db.nextEventId, "Creation", ct, some db.nextFileId⟩] ∧
    on_created env fs
      (on_created env fs processed db path false false false).1
      (on_created env fs processed db path false false false).2
      path false false false =
      on_created env fs processed db path false false false := by
  have h1 : on_created env fs processed db path false false false =
      (path :: processed,
        insert_event false
          (insert_file false db (basename path) path (SQLVal.text ct)
            (SQLVal.text "NULL") (SQLVal.text "NULL") c env.user
            (if env.admin then "Admin" else "Standard User"))
          "Creation" ct (some db.nextFileId)) := by
    simp [on_created, hnp, hct, hchk, hc, insert_file]
  refine ⟨?_, ?_, ?_, ?_⟩
  · rw [h1]
  · rw [h1]; simp [insert_file, insert_event]
  · rw [h1]; simp [insert_file, insert_event]
  · rw [h1]; simp [on_created]

/-- C5 witness: the first creation of /w/a.txt in an empty session
records one pair and the repeated signal is a no-op. -/
theorem c5_created_dedup_witness :
    (on_created exEnv exFS1 [] DB.empty "/w/a.txt" false false false).1 =
      ["/w/a.txt"] ∧
    (on_created exEnv exFS1 [] DB.empty "/w/a.txt" false false false).2.files =
      DB.empty.files ++ [⟨DB.empty.nextFileId, basename "/w/a.txt",
        "/w/a.txt", SQLVal.text "CT1", SQLVal.text "NULL",
        SQLVal.text "NULL", "00000000", exEnv.user,
        if exEnv.admin then "Admin" else "Standard User"⟩] ∧
    (on_created exEnv exFS1 [] DB.empty "/w/a.txt" false false false).2.events =
      DB.empty.events ++ [⟨DB.empty.nextEventId, "Creation", "CT1",
        some DB.empty.nextFileId⟩] ∧
    on_created exEnv exFS1
      (on_created exEnv exFS1 [] DB.empty "/w/a.txt" false false false).1
      (on_created exEnv exFS1 [] DB.empty "/w/a.txt" false false false).2
      "/w/a.txt" false false false =
      on_created exEnv exFS1 [] DB.empty "/w/a.txt" false false false :=
  c5_created_dedup exEnv exFS1 [] DB.empty "/w/a.txt" "CT1" "00000000"
    (by decide) (by decide) (by decide) (by decide)

/-- C6 counterexample: deleting /w/a.txt, whose matched record was
observed by user alice, writes a record attributed to the current user
bob: the observed user is not carried forward unchanged. -/
theorem c6_counterexample :
    lookupByPath exDB1 "/w/a.txt" = some exRowOld ∧
    exRowOld.user = "alice" ∧ exEnv.user = "bob" ∧
    (on_deleted exEnv exDB1 "/w/a.txt" false false false).files =
      exDB1.files ++ [⟨2, "a.txt", "/w/a.txt", SQLVal.text "CT0",
        SQLVal.text "MT0", SQLVal.text "NOW", "deadbeef", "bob", "Admin"⟩] := by
  decide

/-- C6 amended: when the full-path lookup finds a record, the delete
handler appends one FileRecord carrying forward the matched record's
creation time, modification time, hash and role, with deletion time set
to the current clock — but with the observed user re-read from the
environment rather than carried forward — plus one `Deletion` event. -/
theorem c6_delete_refreshes_user (env : Env) (db : DB) (src_path : String)
    (r : FileRow) (hlk : lookupByPath db src_path = some r) :
    (on_deleted env db src_path false false false).files =
      db.files ++ [⟨db.nextFileId, basename src_path, src_path,
        r.creation_time, r.modification_time, SQLVal.text env.now,
        r.hash_value, env.user, r.role⟩] ∧
    (on_deleted env db src_path false false false).events =
      db.events ++ [⟨db.nextEventId, "Deletion", env.now,
        some db.nextFileId⟩] := by
  simp [on_deleted, hlk, insert_file, insert_event]

/-- C6 witness: the amended statement applied to the concrete scenario of
the counterexample. -/
theorem c6_delete_refreshes_user_witness :
    (on_deleted exEnv exDB1 "/w/a.txt" false false false).files =
      exDB1.files ++ [⟨exDB1.nextFileId, basename "/w/a.txt", "/w/a.txt",
        exRowOld.creation_time, exRowOld.modification_time,
        SQLVal.text exEnv.now, exRowOld.hash_value, exEnv.user,
        exRowOld.role⟩] ∧
    (on_deleted exEnv exDB1 "/w/a.txt" false false false).events =
      exDB1.events ++ [⟨exDB1.nextEventId, "Deletion", exEnv.now,
        some exDB1.nextFileId⟩] :=
  c6_delete_refreshes_user exEnv exDB1 "/w/a.txt" exRowOld (by decide)

/-- C7 counterexample: in a concrete startup run over one directory, no
watcher subscription occurs before the scan has returned — the trace is
scan start, scan end, then the subscription, so the scan does run to
completion while the watcher is still unarmed. -/
theorem c7_counterexample :
    scheduleBeforeScanEnd
      (monitor_directories exEnv exFS1 ["/w"] DB.empty).1 = false ∧
    (monitor_directories exEnv exFS1 ["/w"] DB.empty).1 =
      [MonAction.scanStart ["/w"], MonAction.scanEnd,
        MonAction.scheduleWatch "/w", MonAction.observerStart,
        MonAction.monitorLoop] := by
  decide

/-- C7 amended: in every startup run, the baseline scan runs to
completion strictly before any watcher subscription is registered:
every `scheduleWatch` action in the trace is preceded by `scanEnd`. -/
theorem c7_scan_completes_before_arming (env : Env) (fs : FS)
    (dirs : List String) (db : DB) (i : Nat) (d : String)
    (h : (monitor_directories env fs dirs db).1.get? i =
      some (MonAction.scheduleWatch d)) :
    (monitor_directories env fs dirs db).1.get? 1 =
      some MonAction.scanEnd ∧ 1 < i := by
  refine ⟨by simp [monitor_directories], ?_⟩
  match i with
  | 0 => simp [monitor_directories] at h
  | 1 => simp [monitor_directories] at h
  | n + 2 => omega

/-- C7 witness: in the concrete one-directory run the subscription sits
at index 2, after the scan end at index 1. -/
theorem c7_scan_completes_before_arming_witness :
    (monitor_directories exEnv exFS1 ["/w"] DB.empty).1.get? 1 =
      some MonAction.scanEnd ∧ 1 < 2 :=
  c7_scan_completes_before_arming exEnv exFS1 ["/w"] DB.empty 2 "/w"
    (by decide)

/-- One scanner step preserves the scan-writer invariant: it appends
either nothing or one FileRecord/Event pair of the documented shape. -/
theorem scanStep_inv (env : Env) (fs : FS) (db0 : DB)
    (acc : List FileDetail × DB) (e : FSEntry)
    (hinv : ScanInv db0 acc.2) : ScanInv db0 (scanStep env fs acc e).2 := by
  rcases hinv with ⟨nf, ne, hfl, hev, hdel, hsc⟩
  cases hchk : calculate_crc32_checksum fs (epath e) with
  | none => exact ⟨nf, ne, by simp [scanStep, hchk, hfl],
      by simp [scanStep, hchk, hev], hdel, hsc⟩
  | some c =>
    by_cases hc : c = ""
    · exact ⟨nf, ne, by simp [scanStep, hchk, hc, hfl],
        by simp [scanStep, hchk, hc, hev], hdel, hsc⟩
    · have hstep : (scanStep env fs acc e).2 =
        { acc.2 with
          files := acc.2.files ++ [⟨acc.2.nextFileId, e.name, epath e,
            SQLVal.text e.ctime, SQLVal.text e.mtime, SQLVal.text "NULL",
            c, env.user, if env.admin then "Admin" else "Standard User"⟩],
          events := acc.2.events ++ [⟨acc.2.nextEventId,
            "Scanned in directory", e.ctime, some acc.2.nextFileId⟩],
          nextFileId := acc.2.nextFileId + 1,
          nextEventId := acc.2.nextEventId + 1,
          lastrowid := some acc.2.nextEventId } := by
        simp [scanStep, hchk, hc, insert_file, insert_event]
      refine ⟨nf ++ [⟨acc.2.nextFileId, e.name, epath e,
          SQLVal.text e.ctime, SQLVal.text e.mtime, SQLVal.text "NULL",
          c, env.user, if env.admin then "Admin" else "Standard User"⟩],
        ne ++ [⟨acc.2.nextEventId, "Scanned in directory", e.ctime,
          some acc.2.nextFileId⟩], ?_, ?_, ?_, ?_⟩
      · rw [hstep]; simp [hfl]
      · rw [hstep]; simp [hev]
      · intro r hr
        rcases List.mem_append.mp hr with h | h
        · exact hdel r h
        · rw [List.mem_singleton.mp h]
      · intro ev hevm
        rcases List.mem_append.mp hevm with h | h
        · obtain ⟨hty, r, hrm, hfid, hct⟩ := hsc ev h
          exact ⟨hty, r, List.mem_append_left _ hrm, hfid, hct⟩
        · rw [List.mem_singleton.mp h]
          exact ⟨rfl, ⟨acc.2.nextFileId, e.name, epath e,
            SQLVal.text e.ctime, SQLVal.text e.mtime, SQLVal.text "NULL",
            c, env.user, if env.admin then "Admin" else "Standard User"⟩,
            List.mem_append_right _ (List.mem_singleton.mpr rfl), rfl, rfl⟩

/-- C8 amended: the baseline scanner only appends whole FileRecord/Event
pairs; every appended FileRecord has the literal TEXT value "NULL" (not
the SQL NULL) as deletion time, and every appended event is a
`Scanned in directory` event timestamped at the creation time stored in
its FileRecord (the file's creation time, not the scan time). -/
theorem c8_scan_rows (env : Env) (fs : FS) (dirs : List String) (db : DB) :
    ∃ nf ne,
      (scan_directory env fs dirs db).2.files = db.files ++ nf ∧
      (scan_directory env fs dirs db).2.events = db.events ++ ne ∧
      (∀ r ∈ nf, r.deletion_time = SQLVal.text "NULL") ∧
      (∀ ev ∈ ne, ev.event_type = "Scanned in directory" ∧
        ∃ r ∈ nf, ev.file_id = some r.file_id ∧
          r.creation_time = SQLVal.text ev.event_time) := by
  have base : ScanInv db (([], db) : List FileDetail × DB).2 :=
    ⟨[], [], by simp, by simp, by simp, by simp⟩
  have main : ScanInv db (scan_directory env fs dirs db).2 := by
    unfold scan_directory
    exact foldl_pres (fun acc => ScanInv db acc.2) _
      (fun acc d hacc => foldl_pres (fun acc2 => ScanInv db acc2.2) _
        (fun acc2 e h2 => scanStep_inv env fs db acc2 e h2)
        (walkFiles fs d) acc hacc) dirs ([], db) base
  exact main

/-- C8 counterexample: scanning /w writes FileRecords whose deletion
time is the four-character TEXT value "NULL", which is not the SQL NULL
value. -/
theorem c8_counterexample :
    ((scan_directory exEnv exFS1 ["/w"] DB.empty).2.files.map
      FileRow.deletion_time) = [SQLVal.text "NULL", SQLVal.text "NULL"] ∧
    SQLVal.text "NULL" ≠ SQLVal.null := by
  decide

/-- One scanner step grows the returned detail list by one exactly when
the walked file passes the fingerprint guard. -/
theorem scanStep_length (env : Env) (fs : FS) (acc : List FileDetail × DB)
    (e : FSEntry) :
    (scanStep env fs acc e).1.length =
      acc.1.length + (if scanGuard fs e then 1 else 0) := by
  cases hchk : calculate_crc32_checksum fs (epath e) with
  | none => simp [scanStep, scanGuard, pyTruthy, hchk]
  | some c =>
    by_cases hc : c = ""
    · simp [scanStep, scanGuard, pyTruthy, hchk, hc]
    · simp [scanStep, scanGuard, pyTruthy, hchk, hc]

/-- Folding the scanner step over a list of walked files grows the
detail list by the number of files passing the fingerprint guard. -/
theorem foldl_scanStep_length (env : Env) (fs : FS) :
    ∀ (l : List FSEntry) (acc : List FileDetail × DB),
      ((l.foldl (scanStep env fs) acc).1).length =
        acc.1.length + (l.filter (scanGuard fs)).length := by
  intro l
  induction l with
  | nil => intro acc; simp
  | cons e t ih =>
    intro acc
    rw [List.foldl_cons, ih, scanStep_length]
    by_cases hg : scanGuard fs e
    · simp [List.filter_cons, hg]
      omega
    · simp [List.filter_cons, hg]

/-- Shifting the seed out of a sum-accumulating left fold. -/
theorem foldl_add_shift (c : String → Nat) :
    ∀ (l : List String) (n : Nat),
      l.foldl (fun m d => m + c d) n = n + l.foldl (fun m d => m + c d) 0 := by
  intro l
  induction l with
  | nil => intro n; simp
  | cons d t ih =>
    intro n
    rw [List.foldl_cons, List.foldl_cons, ih, ih (0 + c d)]
    omega

/-- The directory fold of the scanner adds one detail entry per recorded
file across all roots. -/
theorem scan_outer_length (env : Env) (fs : FS) :
    ∀ (dirs : List String) (acc : List FileDetail × DB),
      ((dirs.foldl
          (fun a d => (walkFiles fs d).foldl (scanStep env fs) a) acc).1).length =
        acc.1.length + scanCount fs dirs := by
  intro dirs
  induction dirs with
  | nil => intro acc; simp [scanCount]
  | cons d t ih =>
    intro acc
    rw [List.foldl_cons, ih, foldl_scanStep_length]
    unfold scanCount
    rw [List.foldl_cons,
      foldl_add_shift (fun d => ((walkFiles fs d).filter (scanGuard fs)).length)
        t (0 + ((walkFiles fs d).filter (scanGuard fs)).length)]
    omega

/-- C9 amended: `scan_directory` returns the list of per-file detail
records (not a bare count); the length of that list equals the number of
walked files whose fingerprint passed the truthiness guard, i.e. the
count of files recorded. -/
theorem c9_scan_returns_detail_list (env : Env) (fs : FS)
    (dirs : List String) (db : DB) :
    scanReturnValue env fs dirs db =
      PyRet.ofList (scan_directory env fs dirs db).1 ∧
    (scan_directory env fs dirs db).1.length = scanCount fs dirs := by
  refine ⟨rfl, ?_⟩
  unfold scan_directory
  have h := scan_outer_length env fs dirs ([], db)
  simpa using h

/-- C9 counterexample: the value returned by the scan of /w is a list
(of the two recorded detail entries), not a number. -/
theorem c9_counterexample :
    PyRet.isCount (scanReturnValue exEnv exFS1 ["/w"] DB.empty) = false ∧
    (scan_directory exEnv exFS1 ["/w"] DB.empty).1.length = 2 := by
  decide

/-- C10: a readable zero-byte file fingerprints to the eight-character
string "00000000" (not `None`), which passes the Python truthiness guard
of the scanner (`scanGuard`) and of the creation handler, so the file is
recorded: `on_created` appends one FileRecord and one Event for it. -/
theorem c10_empty_file_recorded (env : Env) (fs : FS)
    (processed : List String) (db : DB) (p : String) (e : FSEntry)
    (hfs : lookupFS fs p = some e) (hempty : e.content = some [])
    (hnp : p ∉ processed) :
    calculate_crc32_checksum fs p = some "00000000" ∧
    pyTruthy (calculate_crc32_checksum fs p) = true ∧
    scanGuard fs e = true ∧
    (on_created env fs processed db p false false false).2.files.length =
      db.files.length + 1 ∧
    (on_created env fs processed db p false false false).2.events.length =
      db.events.length + 1 := by
  have hfs2 : fs.find? (fun x => epath x == p) = some e := hfs
  have h3 : (epath e == p) = true :=
    List.find?_some (p := fun x => epath x == p) hfs2
  have hpe : epath e = p := eq_of_beq h3
  have hchk : calculate_crc32_checksum fs p = some "00000000" := by
    simp only [calculate_crc32_checksum, hfs, hempty]
    decide
  have hct : getctime fs p = some e.ctime := by simp [getctime, hfs]
  have hne : ("00000000" : String) ≠ "" := by decide
  refine ⟨hchk, by simp [pyTruthy, hchk, hne], ?_, ?_, ?_⟩
  · simp [scanGuard, hpe, hchk, pyTruthy, hne]
  · simp [on_created, hnp, hct, hchk, hne, insert_file, insert_event]
  · simp [on_created, hnp, hct, hchk, hne, insert_file, insert_event]

/-- C10 witness: the empty file /w/a.txt fingerprints to "00000000" and
is recorded by the creation handler on the empty store. -/
theorem c10_empty_file_recorded_witness :
    calculate_crc32_checksum exFS1 "/w/a.txt" = some "00000000" ∧
    pyTruthy (calculate_crc32_checksum exFS1 "/w/a.txt") = true ∧
    scanGuard exFS1 exEntryA = true ∧
    (on_created exEnv exFS1 [] DB.empty "/w/a.txt"
      false false false).2.files.length = DB.empty.files.length + 1 ∧
    (on_created exEnv exFS1 [] DB.empty "/w/a.txt"
      false false false).2.events.length = DB.empty.events.length + 1 :=
  c10_empty_file_recorded exEnv exFS1 [] DB.empty "/w/a.txt" exEntryA
    (by decide) (by decide) (by decide)
